import Mathlib

/-!
# Verification of the Gemini Business cookie-refresh pipeline

Shallow embedding of the account-acquisition pipeline
(`src/main.py`, `src/api_server.py`, `src/browser_controller.py`,
`src/mail_client.py`, `src/clash_manager.py`, `src/utils.py`) and proofs
of the specified properties.

External I/O (HTTP responses, browser state, the system clock, random
generation) is modelled by explicit environment parameters; every pure
computation (regex code extraction, cookie normalisation, node filtering,
record upsert, retry control flow) is translated directly from the source.
-/

namespace GeminiRefresh

/-! ## String helpers

`strContains s sub` models the Python substring test `sub in s`.
-/

/-- Substring occurrence on character lists: `sub` occurs contiguously in `s`. -/
def listContains (s sub : List Char) : Bool :=
  match s with
  | [] => sub.isEmpty
  | _ :: rest => sub.isPrefixOf s || listContains rest sub

/-- Python `sub in s` substring test. -/
def strContains (s sub : String) : Bool :=
  listContains s.toList sub.toList

/-! ## Mail client: verification-code extraction (`mail_client.py`, `_extract_code`)

The source applies the Python regex

  `(?:验证码|code|verification|passcode|pin).*?[:：]\s*([A-Za-z0-9]{4,8})\b`

with `IGNORECASE | DOTALL`, and on failure falls back to the first match of
`\b\d{6}\b`.  The matcher below hand-compiles exactly these two patterns with
Python's leftmost-match and lazy/greedy backtracking semantics.

Character-class notes: `[A-Za-z0-9]` and `\d` are ASCII here; Python's
unicode `\b` word characters are modelled as ASCII alphanumerics,
underscore, and CJK unified ideographs (the only non-ASCII word characters
appearing in this code base's label set and mail bodies).
-/

/-- ASCII alphanumeric, the token class `[A-Za-z0-9]` of the source regex. -/
def isAsciiAlnum (c : Char) : Bool :=
  (('A' ≤ c && c ≤ 'Z') || ('a' ≤ c && c ≤ 'z') || ('0' ≤ c && c ≤ '9'))

/-- Word character for Python `\b`: ASCII alphanumeric, underscore, or a CJK
unified ideograph (covering the `验证码` label characters). -/
def isWordChar (c : Char) : Bool :=
  isAsciiAlnum c || c == '_' || (0x4e00 ≤ c.toNat && c.toNat ≤ 0x9fff)

/-- ASCII lowercasing used to model `re.IGNORECASE`. -/
def lowerAscii (c : Char) : Char :=
  if 'A' ≤ c ∧ c ≤ 'Z' then Char.ofNat (c.toNat + 32) else c

/-- Case-insensitive literal prefix match; returns the remainder on success. -/
def stripLabelCI : List Char → List Char → Option (List Char)
  | [], cs => some cs
  | _ :: _, [] => none
  | l :: ls, c :: cs =>
      if lowerAscii c = lowerAscii l then stripLabelCI ls cs else none

/-- The label alternation `(?:验证码|code|verification|passcode|pin)`,
in the source's order. -/
def CODE_LABELS : List (List Char) :=
  [['验', '证', '码'], ['c', 'o', 'd', 'e'],
   ['v', 'e', 'r', 'i', 'f', 'i', 'c', 'a', 't', 'i', 'o', 'n'],
   ['p', 'a', 's', 's', 'c', 'o', 'd', 'e'], ['p', 'i', 'n']]

/-- Try the label alternatives in order at the current position. -/
def labelAt (cs : List Char) : Option (List Char) :=
  CODE_LABELS.foldl (fun acc l => acc.orElse (fun _ => stripLabelCI l cs)) none

/-- After `[:：]`: match `\s*([A-Za-z0-9]{4,8})\b` and return the capture.
`\s*` is maximal munch (whitespace and the token class are disjoint); the
greedy bounded repeat with the trailing `\b` succeeds exactly when the
maximal alphanumeric run has length 4–8 and is not followed by a word
character. -/
def colonCont (cs : List Char) : Option (List Char) :=
  let cs1 := cs.dropWhile Char.isWhitespace
  let run := cs1.takeWhile isAsciiAlnum
  let rest := cs1.dropWhile isAsciiAlnum
  if (4 ≤ run.length && run.length ≤ 8 &&
      (match rest with | [] => true | c :: _ => !isWordChar c)) then
    some run
  else none

/-- The lazy `.*?[:：]` (DOTALL): find the leftmost colon after which the
tail of the pattern succeeds, expanding the lazy star past failing colons. -/
def scanColon : List Char → Option (List Char)
  | [] => none
  | c :: rest =>
      if c = ':' ∨ c = '：' then
        match colonCont rest with
        | some tok => some tok
        | none => scanColon rest
      else scanColon rest

/-- `re.search` of the label-anchored pattern: leftmost start position at
which a label matches and the rest of the pattern succeeds. -/
def searchLabel : List Char → Option (List Char)
  | [] => none
  | c :: rest =>
      match labelAt (c :: rest) with
      | some afterLbl =>
          match scanColon afterLbl with
          | some tok => some tok
          | none => searchLabel rest
      | none => searchLabel rest

/-- ASCII digit test, modelling `\d`. -/
def isAsciiDigit (c : Char) : Bool := '0' ≤ c && c ≤ '9'

/-- `\d{6}\b` at the current position: exactly six digits followed by a
non-word character or the end of input. -/
def sixDigitsHere (cs : List Char) : Option (List Char) :=
  match cs with
  | a :: b :: c :: d :: e :: f :: rest =>
      if (isAsciiDigit a && isAsciiDigit b && isAsciiDigit c && isAsciiDigit d &&
          isAsciiDigit e && isAsciiDigit f &&
          (match rest with | [] => true | g :: _ => !isWordChar g)) then
        some [a, b, c, d, e, f]
      else none
  | _ => none

/-- First match of `\b\d{6}\b` (the head of `re.findall`): scan left to
right, requiring a word boundary before the six digits. -/
def findSixDigit (prev : Option Char) : List Char → Option (List Char)
  | [] => none
  | c :: rest =>
      if (match prev with | none => true | some p => !isWordChar p) then
        match sixDigitsHere (c :: rest) with
        | some tok => some tok
        | none => findSixDigit (some c) rest
      else findSixDigit (some c) rest

/-- `MailClient._extract_code` (`mail_client.py` lines 245–266): try the
label-anchored pattern first, then fall back to the first standalone
six-digit number. -/
def extract_code (text : String) : Option String :=
  match searchLabel text.toList with
  | some tok => some (String.mk tok)
  | none => (findSixDigit none text.toList).map String.mk

/-! ## Browser session: cookie extraction (`browser_controller.py`, `extract_cookies`)

Browser state is modelled by the cookie list of the isolated context and
the two values parsed from the final URL (`config_id` from the path,
`csesidx` from the query string); the system clock is the parameter `now`
in epoch seconds.  Rendered date-time strings are modelled by the epoch
timestamp they render (`Option Int`, `none` standing for the empty
string), since `strftime` is injective on the represented range. -/

/-- One browser cookie as reported by the context: name, value, and the
optional `expires` attribute (epoch seconds; `none` models an absent key). -/
structure BCookie where
  name : String
  value : String
  expires : Option Int
  deriving DecidableEq

/-- The dict built by `extract_cookies`: primary session cookie, session
index, configuration id, secondary host cookie, and the rendered expiry
(`none` models the initial empty string). -/
structure CookieBundle where
  secure_c_ses : String
  csesidx : String
  config_id : String
  host_c_oses : String
  expires_at : Option Int
  deriving DecidableEq

/-- Body of the cookie loop in `extract_cookies` (lines 603–621): the
primary cookie sets `secure_c_ses` and, when its `expires` value is
truthy (non-zero), sets `expires_at` to the timestamp minus 12 hours
(43200 s); the secondary cookie sets `host_c_oses`. -/
def applyCookie (res : CookieBundle) (ck : BCookie) : CookieBundle :=
  if ck.name = "__Secure-C_SES" then
    let res1 := { res with secure_c_ses := ck.value }
    match ck.expires with
    | some e => if e ≠ 0 then { res1 with expires_at := some (e - 43200) } else res1
    | none => res1
  else if ck.name = "__Host-C_OSES" then
    { res with host_c_oses := ck.value }
  else res

/-- `BrowserController.extract_cookies` (lines 554–637).  `config_id` and
`csesidx` stand for the values already parsed from the page URL (empty
string when absent); the default expiry is 7 days (604800 s) past `now`. -/
def extract_cookies (config_id csesidx : String) (cookies : List BCookie)
    (now : Int) : CookieBundle :=
  let init : CookieBundle :=
    { secure_c_ses := "", csesidx := csesidx, config_id := config_id,
      host_c_oses := "", expires_at := none }
  let res := cookies.foldl applyCookie init
  if res.expires_at = none then
    { res with expires_at := some (now + 604800) }
  else res

/-! ## Browser session: verification-code submission (`browser_controller.py`,
`enter_verification_code`)

After the code is submitted, the source polls the page URL up to 10 times
(3 s apart) for a logged-in marker, and only after that loop checks the
then-current URL once for a failure marker.  The page is modelled by
`url : Nat → String`, the URL observed at the k-th read (reads 0–9 inside
the loop, read 10 by the final failure check). -/

/-- Logged-in URL markers of the success poll (line 537). -/
def SUCCESS_KEYWORDS : List String := ["home", "admin", "setup", "create", "dashboard"]

/-- Still-on-verification / error URL markers of the final check (line 543). -/
def FAIL_KEYWORDS : List String := ["verify", "oob", "error"]

/-- URL contains some logged-in marker. -/
def hasSuccessMarker (u : String) : Bool :=
  SUCCESS_KEYWORDS.any (fun kw => strContains u kw)

/-- URL contains some failure marker. -/
def hasFailMarker (u : String) : Bool :=
  FAIL_KEYWORDS.any (fun kw => strContains u kw)

/-- The post-submission poll (lines 534–548): `fuel` iterations remain; each
iteration reads the URL and returns `true` on a success marker; once the
budget is exhausted the current URL is read once more and the result is
`true` unless it carries a failure marker. -/
def verifyPoll (url : Nat → String) : Nat → Nat → Bool
  | i, 0 => !hasFailMarker (url i)
  | i, fuel + 1 => if hasSuccessMarker (url i) then true else verifyPoll url (i + 1) fuel

/-- `BrowserController.enter_verification_code` (lines 459–552), decision
structure: fails when no code-input field is found within its lookup
budget (`codeInputFound`); otherwise fills and submits the code and runs
the 10-poll URL check. -/
def enter_verification_code (codeInputFound : Bool) (url : Nat → String) : Bool :=
  if codeInputFound then verifyPoll url 0 10 else false

/-- Modelled from the spec: the claimed behaviour of the post-submission
poll — on each of the 10 polls, a success marker returns `true`, a failure
marker returns `false` immediately, and an exhausted budget returns `true`
optimistically.  Used only to exhibit the divergence from the source. -/
def verifyPollClaimed (url : Nat → String) : Nat → Nat → Bool
  | _, 0 => true
  | i, fuel + 1 =>
      if hasSuccessMarker (url i) then true
      else if hasFailMarker (url i) then false
      else verifyPollClaimed url (i + 1) fuel

/-- `BrowserController.wait_for_login_complete` (lines 639–657): polls every
3 s until `timeout // 3` reads for a completed-login URL marker. -/
def LOGIN_COMPLETE_KEYWORDS : List String :=
  ["home", "admin", "setup", "create", "dashboard", "cid"]

/-- One poll of `wait_for_login_complete` per 3-second tick. -/
def wait_for_login_complete (url : Nat → String) : Nat → Nat → Bool
  | _, 0 => false
  | i, fuel + 1 =>
      if LOGIN_COMPLETE_KEYWORDS.any (fun kw => strContains (url i) kw) then true
      else wait_for_login_complete url (i + 1) fuel

/-! ## Proxy manager (`clash_manager.py`)

The control-plane HTTP API and the external reachability probe are
modelled as per-node oracles.  `find_healthy_node` receives the member
list of the resolved group in the order left by `random.shuffle`; the
claims quantify over that order. -/

/-- Outcome of the `/delay` control-API request in `test_latency`: a 200
response whose JSON may or may not carry a `delay` field, a non-200
response, or a transport error. -/
inductive DelayResp where
  | ok (delay : Option Int)
  | bad
  | err
  deriving DecidableEq

/-- `ClashManager.test_latency` (lines 143–166): on a 200 response the
`delay` field with default 0, on anything else −1. -/
def test_latency (r : DelayResp) : Int :=
  match r with
  | .ok (some d) => d
  | .ok none => 0
  | .bad => -1
  | .err => -1

/-- `ClashManager._test_google_access` (lines 216–249): the reachability
probe succeeds exactly on HTTP status 200 or 204 (`none` models a
transport error / timeout). -/
def test_google_access (status : Option Nat) : Bool :=
  match status with
  | some s => s = 200 || s = 204
  | none => false

/-- `ClashManager.SKIP_KEYWORDS` (line 24): denylist of utility and
informational pseudo-nodes. -/
def SKIP_KEYWORDS : List String :=
  ["自动选择", "故障转移", "DIRECT", "REJECT", "剩余", "到期", "官网"]

/-- A node name containing any denylist keyword is skipped. -/
def skipName (node : String) : Bool :=
  SKIP_KEYWORDS.any (fun kw => strContains node kw)

/-- Per-node environment of `find_healthy_node`: the latency-probe response
and the reachability-probe status for each node name. -/
structure ClashEnv where
  delayResp : String → DelayResp
  googleStatus : String → Option Nat

/-- Observable control-plane actions of `find_healthy_node`: a latency
probe, an egress switch, and a reachability probe, each naming the node. -/
inductive CEv where
  | lat (node : String)
  | select (node : String)
  | reach (node : String)
  deriving DecidableEq

/-- `ClashManager.find_healthy_node` (lines 251–297), loop over the
shuffled member list: skip denylisted names; probe latency and skip
non-positive results; otherwise switch the egress route to the candidate
and return it if the reachability probe passes.  The second component is
the trace of control-plane actions. -/
def find_healthy_node (env : ClashEnv) : List String → Option String × List CEv
  | [] => (none, [])
  | n :: rest =>
      if skipName n then find_healthy_node env rest
      else if test_latency (env.delayResp n) ≤ 0 then
        ((find_healthy_node env rest).1,
         CEv.lat n :: (find_healthy_node env rest).2)
      else if test_google_access (env.googleStatus n) then
        (some n, [CEv.lat n, CEv.select n, CEv.reach n])
      else
        ((find_healthy_node env rest).1,
         CEv.lat n :: CEv.select n :: CEv.reach n :: (find_healthy_node env rest).2)

/-! ## Artifact store (`utils.py`, `update_accounts_json`)

`datetime.now()` is the parameter `now`.  The source computes the default
expiry as `datetime.now().replace(day=datetime.now().day + 7)`, which
raises `ValueError` whenever the incremented day is out of range for the
current month; the embedding makes the operation return `Except`. -/

/-- A wall-clock datetime, the shape handled by `datetime.replace` and
`strftime`. -/
structure PyDateTime where
  year : Nat
  month : Nat
  day : Nat
  hour : Nat
  minute : Nat
  second : Nat
  deriving DecidableEq

/-- Gregorian leap-year rule, as used by Python's `datetime` validation. -/
def isLeapYear (y : Nat) : Bool :=
  (y % 4 = 0 && y % 100 ≠ 0) || y % 400 = 0

/-- Number of days of a month, as used by `datetime` day validation. -/
def daysInMonth (y m : Nat) : Nat :=
  if m = 2 then (if isLeapYear y then 29 else 28)
  else if m = 4 ∨ m = 6 ∨ m = 9 ∨ m = 11 then 30
  else 31

/-- `datetime.replace(day=d)`: succeeds only when `d` is a valid day of the
unchanged month, otherwise raises `ValueError`. -/
def replaceDay (t : PyDateTime) (d : Nat) : Except String PyDateTime :=
  if 1 ≤ d ∧ d ≤ daysInMonth t.year t.month then
    Except.ok { t with day := d }
  else Except.error "day is out of range for month"

/-- The cookie-data dict handed to the artifact store: the extracted
bundle plus the identity merged in by the orchestrator (`password` is the
empty string on the path that does not merge it). -/
structure AccountData where
  secure_c_ses : String
  csesidx : String
  config_id : String
  host_c_oses : String
  expires_at : Option Int
  email : String
  password : String
  deriving DecidableEq

/-- Merge of the extracted bundle with identity fields
(`cookie_data["email"] = ...`, `cookie_data["password"] = ...`). -/
def mkAccountData (b : CookieBundle) (email password : String) : AccountData :=
  { secure_c_ses := b.secure_c_ses, csesidx := b.csesidx,
    config_id := b.config_id, host_c_oses := b.host_c_oses,
    expires_at := b.expires_at, email := email, password := password }

/-- One record of `accounts.json` as written by `update_accounts_json`.
`expires_at`, `created_at` and `updated_at` model the rendered strings by
the datetime they render. -/
structure AccountRecord where
  id : String
  email : String
  secure_c_ses : String
  csesidx : String
  config_id : String
  host_c_oses : String
  expires_at : PyDateTime
  created_at : PyDateTime
  updated_at : PyDateTime
  deriving DecidableEq

/-- The record built by `update_accounts_json` (lines 139–149): `old` is
the existing record for the email when one exists; `freshId` is
`"account_" ++ (len + 1)`. -/
def mkRecord (freshId email : String) (cd : AccountData)
    (expires now : PyDateTime) (old : Option AccountRecord) : AccountRecord :=
  { id := match old with | some o => o.id | none => freshId,
    email := email,
    secure_c_ses := cd.secure_c_ses,
    csesidx := cd.csesidx,
    config_id := cd.config_id,
    host_c_oses := cd.host_c_oses,
    expires_at := expires,
    created_at := match old with | some o => o.created_at | none => now,
    updated_at := now }

/-- Find-first-by-email upsert of `update_accounts_json` (lines 129–156):
the first record with the given email is replaced in place, otherwise the
new record is appended. -/
def upsertRecord (email : String) (mk : Option AccountRecord → AccountRecord) :
    List AccountRecord → List AccountRecord
  | [] => [mk none]
  | a :: rest =>
      if a.email = email then mk (some a) :: rest
      else a :: upsertRecord email mk rest

/-- `update_accounts_json` (`utils.py` lines 113–157): computes the default
expiry by `now.replace(day=now.day + 7)` — raising when that day is out of
range for the current month — then upserts the record keyed by email.  The
supplied `cookie_data.expires_at` is never read. -/
def update_accounts_json (now : PyDateTime) (accounts : List AccountRecord)
    (email : String) (cookie_data : AccountData) :
    Except String (List AccountRecord) :=
  match replaceDay now (now.day + 7) with
  | Except.error e => Except.error e
  | Except.ok expires =>
      let freshId := "account_" ++ toString (accounts.length + 1)
      Except.ok (upsertRecord email
        (mkRecord freshId email cookie_data expires now) accounts)

/-! ## Acquisition orchestrator (`main.py`, `api_server.py`)

The per-attempt external outcomes (mailbox registration, browser login,
code delivery, code verification, login completion, extracted bundle) are
oracles indexed by attempt number.  Each pipeline returns its result
together with the trace of observable actions, in source order. -/

/-- Observable actions of the orchestration pipelines.  `i` is the attempt
index (always 0 for the single-attempt refresh paths). -/
inductive Ev where
  | findNode
  | switchNode (node : String)
  | mailRegister (i : Nat)
  | bindExisting (email password : String)
  | clearInbox
  | browserStart (i : Nat)
  | browserLogin (i : Nat)
  | waitCode (i : Nat)
  | enterCode (i : Nat)
  | waitComplete (i : Nat)
  | extractCk (i : Nat)
  | browserStop (i : Nat)
  | storeWrite (d : AccountData)
  deriving DecidableEq

/-- Event-class predicates used to count pipeline actions. -/
def isMailReg : Ev → Bool
  | Ev.mailRegister _ => true
  | _ => false

/-- Login-step events. -/
def isLogin : Ev → Bool
  | Ev.browserLogin _ => true
  | _ => false

/-- Inbox-clearing events. -/
def isClear : Ev → Bool
  | Ev.clearInbox => true
  | _ => false

/-- Identity-binding events (`useExisting`). -/
def isBind : Ev → Bool
  | Ev.bindExisting _ _ => true
  | _ => false

/-- Artifact-store write events. -/
def isWrite : Ev → Bool
  | Ev.storeWrite _ => true
  | _ => false

/-- Environment of the registration pipelines: the healthy-node search
outcome, and per-attempt oracle outcomes for every external step. -/
structure RegEnv where
  healthyNode : Option String
  regOk : Nat → Bool
  emailOf : Nat → String
  pwdOf : Nat → String
  loginOk : Nat → Bool
  codeOf : Nat → Option String
  verifyOk : Nat → Bool
  completeOk : Nat → Bool
  extracted : Nat → CookieBundle

/-- One attempt of the registration loop (`register_new_account` lines
54–127 / `register_single_account` lines 287–349): fresh mailbox
registration, browser start, login, code wait, code entry, completion
wait, cookie extraction; any step failure stops the browser and fails the
attempt; a bundle with empty `secure_c_ses` is a failed attempt. -/
def registerAttempt (env : RegEnv) (i : Nat) : Option AccountData × List Ev :=
  if !env.regOk i then (none, [Ev.mailRegister i])
  else
    let pre := [Ev.mailRegister i, Ev.browserStart i, Ev.browserLogin i]
    if !env.loginOk i then (none, pre ++ [Ev.browserStop i])
    else match env.codeOf i with
    | none => (none, pre ++ [Ev.waitCode i, Ev.browserStop i])
    | some _ =>
        let pre2 := pre ++ [Ev.waitCode i, Ev.enterCode i]
        if !env.verifyOk i then (none, pre2 ++ [Ev.browserStop i])
        else if !env.completeOk i then
          (none, pre2 ++ [Ev.waitComplete i, Ev.browserStop i])
        else
          let b := env.extracted i
          let pre3 := pre2 ++ [Ev.waitComplete i, Ev.extractCk i]
          if b.secure_c_ses = "" then (none, pre3 ++ [Ev.browserStop i])
          else
            (some (mkAccountData b (env.emailOf i) (env.pwdOf i)),
             pre3 ++ [Ev.browserStop i])

/-- The bounded retry loop `for attempt in range(max_retries)` with
`max_retries = 3`: attempts run at increasing index until one succeeds or
the budget is exhausted. -/
def registerLoop (env : RegEnv) : Nat → Nat → Option AccountData × List Ev
  | _, 0 => (none, [])
  | i, fuel + 1 =>
      match registerAttempt env i with
      | (some d, tr) => (some d, tr)
      | (none, tr) =>
          let (r, tr2) := registerLoop env (i + 1) fuel
          (r, tr ++ tr2)

/-- `register_new_account` (`main.py` lines 26–130) and
`register_single_account` (`api_server.py` lines 274–351), whose control
flow is identical: find a healthy node first — no node aborts the whole
operation — then run up to 3 full attempts. -/
def register_account_flow (env : RegEnv) : Option AccountData × List Ev :=
  match env.healthyNode with
  | none => (none, [Ev.findNode])
  | some _ =>
      let (r, tr) := registerLoop env 0 3
      (r, Ev.findNode :: tr)

/-- Environment of the single-shot refresh paths. -/
structure RefreshEnv where
  healthyNode : Option String
  switchOk : Bool
  mailLoginOk : Bool
  loginOk : Bool
  codeOf : Option String
  verifyOk : Bool
  completeOk : Bool
  extracted : CookieBundle

/-- `process_existing_account` (`main.py` lines 133–242): single attempt —
node resolution (explicit switch or healthy-node search), identity bound
by direct field assignment, browser start, inbox clear, login, code wait,
code entry, completion wait, extraction; on success the record is written
to `accounts.json` inside the function (the merged data carries no
password field, modelled as the empty string). -/
def process_existing_account (email password : String) (proxyNode : Option String)
    (env : RefreshEnv) : Bool × List Ev :=
  if email = "" then (false, [])
  else
    let nodeOk : Bool × List Ev :=
      match proxyNode with
      | some pn => (env.switchOk, [Ev.switchNode pn])
      | none => (env.healthyNode.isSome, [Ev.findNode])
    if !nodeOk.1 then (false, nodeOk.2)
    else
      let pre := nodeOk.2 ++
        [Ev.bindExisting email password, Ev.browserStart 0, Ev.clearInbox,
         Ev.browserLogin 0]
      if !env.loginOk then (false, pre ++ [Ev.browserStop 0])
      else match env.codeOf with
      | none => (false, pre ++ [Ev.waitCode 0, Ev.browserStop 0])
      | some _ =>
          let pre2 := pre ++ [Ev.waitCode 0, Ev.enterCode 0]
          if !env.verifyOk then (false, pre2 ++ [Ev.browserStop 0])
          else if !env.completeOk then
            (false, pre2 ++ [Ev.waitComplete 0, Ev.browserStop 0])
          else
            let b := env.extracted
            let pre3 := pre2 ++ [Ev.waitComplete 0, Ev.extractCk 0]
            if b.secure_c_ses = "" then (false, pre3 ++ [Ev.browserStop 0])
            else
              (true, pre3 ++ [Ev.storeWrite (mkAccountData b email ""),
                              Ev.browserStop 0])

/-- `refresh_single_account` (`api_server.py` lines 354–413): single
attempt — healthy-node search, identity bound via `login_existing`,
browser start, login, code wait, code entry, completion wait, extraction;
no inbox clear is performed on this path. -/
def refresh_single_account (email password : String) (env : RefreshEnv) :
    Option AccountData × List Ev :=
  match env.healthyNode with
  | none => (none, [Ev.findNode])
  | some _ =>
      let pre0 := [Ev.findNode, Ev.bindExisting email password]
      if !env.mailLoginOk then (none, pre0)
      else
        let pre := pre0 ++ [Ev.browserStart 0, Ev.browserLogin 0]
        if !env.loginOk then (none, pre ++ [Ev.browserStop 0])
        else match env.codeOf with
        | none => (none, pre ++ [Ev.waitCode 0, Ev.browserStop 0])
        | some _ =>
            let pre2 := pre ++ [Ev.waitCode 0, Ev.enterCode 0]
            if !env.verifyOk then (none, pre2 ++ [Ev.browserStop 0])
            else if !env.completeOk then
              (none, pre2 ++ [Ev.waitComplete 0, Ev.browserStop 0])
            else
              let b := env.extracted
              let pre3 := pre2 ++ [Ev.waitComplete 0, Ev.extractCk 0]
              if b.secure_c_ses = "" then (none, pre3 ++ [Ev.browserStop 0])
              else
                (some (mkAccountData b email password),
                 pre3 ++ [Ev.browserStop 0])

/-- Caller of the registration pipeline for one account (`main_async`
register branch, lines 276–291, and `run_register_task`, lines 184–221):
the artifact store is written exactly when the pipeline returns a result. -/
def registerCallerOnce (env : RegEnv) : List Ev :=
  match register_account_flow env with
  | (some d, tr) => tr ++ [Ev.storeWrite d]
  | (none, tr) => tr

/-- `run_refresh_task` (`api_server.py` lines 244–269): the artifact store
is written exactly when `refresh_single_account` returns a result. -/
def runRefreshTask (email password : String) (env : RefreshEnv) : List Ev :=
  match refresh_single_account email password env with
  | (some d, tr) => tr ++ [Ev.storeWrite d]
  | (none, tr) => tr

/-- Modelled from the spec: a bounded-retry wrapper (max 3 full attempts)
around the refresh attempt body, the structure the claim attributes to
`refreshAccount`.  Used only to exhibit the divergence from the
single-attempt source. -/
def refreshPipelineClaimed (email password : String) (env : RefreshEnv) :
    Nat → Option AccountData × List Ev
  | 0 => (none, [])
  | fuel + 1 =>
      match refresh_single_account email password env with
      | (some d, tr) => (some d, tr)
      | (none, tr) =>
          let (r, tr2) := refreshPipelineClaimed email password env fuel
          (r, tr ++ tr2)

/-! ## Concrete environments used by witnesses and counterexamples -/

/-- A refresh environment whose browser login step always fails and whose
other steps would succeed. -/
def envLoginFail : RefreshEnv :=
  { healthyNode := some "Node-1", switchOk := true, mailLoginOk := true,
    loginOk := false, codeOf := some "482193", verifyOk := true,
    completeOk := true,
    extracted := { secure_c_ses := "sesval", csesidx := "1", config_id := "cfg",
                   host_c_oses := "oses", expires_at := some 1700000000 } }

/-- A refresh environment where every step succeeds. -/
def envAllOk : RefreshEnv :=
  { healthyNode := some "Node-1", switchOk := true, mailLoginOk := true,
    loginOk := true, codeOf := some "482193", verifyOk := true,
    completeOk := true,
    extracted := { secure_c_ses := "sesval", csesidx := "1", config_id := "cfg",
                   host_c_oses := "oses", expires_at := some 1700000000 } }

/-- A URL sequence that shows a failure marker for the first six polls and
a success marker afterwards. -/
def urlFailThenHome : Nat → String :=
  fun k => if k < 6 then "https://business.gemini.google/verify" else
    "https://business.gemini.google/home"

/-- A registration environment with a healthy node, successful mailbox
registration, and a browser login step that always fails. -/
def regEnvLoginFail : RegEnv :=
  { healthyNode := some "Node-1", regOk := fun _ => true,
    emailOf := fun i => "u" ++ toString i ++ "@virgilian.com",
    pwdOf := fun i => "Pwd" ++ toString i,
    loginOk := fun _ => false, codeOf := fun _ => some "482193",
    verifyOk := fun _ => true, completeOk := fun _ => true,
    extracted := fun _ =>
      { secure_c_ses := "sesval", csesidx := "1", config_id := "cfg",
        host_c_oses := "oses", expires_at := some 1700000000 } }

/-- A registration environment where every step succeeds and the extracted
bundle has a non-empty primary cookie but all other fields empty. -/
def regEnvAllOk : RegEnv :=
  { healthyNode := some "Node-1", regOk := fun _ => true,
    emailOf := fun i => "u" ++ toString i ++ "@virgilian.com",
    pwdOf := fun i => "Pwd" ++ toString i,
    loginOk := fun _ => true, codeOf := fun _ => some "482193",
    verifyOk := fun _ => true, completeOk := fun _ => true,
    extracted := fun _ =>
      { secure_c_ses := "abc", csesidx := "", config_id := "",
        host_c_oses := "", expires_at := none } }

/-- A proxy environment in which every node's latency probe reports a 200
response without a `delay` field. -/
def clashEnvNoDelay : ClashEnv :=
  { delayResp := fun _ => DelayResp.ok none, googleStatus := fun _ => some 200 }

/-- A proxy environment in which every latency probe succeeds with 100 ms
and reachability succeeds with HTTP 204. -/
def clashEnvAllOk : ClashEnv :=
  { delayResp := fun _ => DelayResp.ok (some 100),
    googleStatus := fun _ => some 204 }

end GeminiRefresh

namespace GeminiRefresh

/-! ## Helper lemmas -/

/-- Cookies other than the primary session cookie leave `secure_c_ses` and
`expires_at` unchanged. -/
theorem applyCookie_other {acc : CookieBundle} {ck : BCookie}
    (h : ck.name ≠ "__Secure-C_SES") :
    (applyCookie acc ck).secure_c_ses = acc.secure_c_ses ∧
    (applyCookie acc ck).expires_at = acc.expires_at := by
  unfold applyCookie
  rw [if_neg h]
  split <;> simp

/-- Folding over a list without the primary session cookie preserves
`secure_c_ses` and `expires_at`. -/
theorem foldl_applyCookie_other (cs : List BCookie) (acc : CookieBundle)
    (h : ∀ ck ∈ cs, ck.name ≠ "__Secure-C_SES") :
    (cs.foldl applyCookie acc).secure_c_ses = acc.secure_c_ses ∧
    (cs.foldl applyCookie acc).expires_at = acc.expires_at := by
  induction cs generalizing acc with
  | nil => exact ⟨rfl, rfl⟩
  | cons ck rest ih =>
      have hck := @applyCookie_other acc ck (h ck (by simp))
      have hrest := ih (applyCookie acc ck) (fun c hc => h c (by simp [hc]))
      exact ⟨hrest.1.trans hck.1, hrest.2.trans hck.2⟩

/-- The record produced by a successful upsert is in the result and carries
the freshly computed fields. -/
theorem upsertRecord_mem (email : String) (mk : Option AccountRecord → AccountRecord)
    (l : List AccountRecord) (X : PyDateTime)
    (h : ∀ old, (mk old).email = email ∧ (mk old).expires_at = X) :
    ∃ r ∈ upsertRecord email mk l, r.email = email ∧ r.expires_at = X := by
  induction l with
  | nil => exact ⟨mk none, by simp [upsertRecord], h none⟩
  | cons a rest ih =>
      by_cases ha : a.email = email
      · exact ⟨mk (some a), by simp [upsertRecord, ha], h (some a)⟩
      · obtain ⟨r, hr, hp⟩ := ih
        exact ⟨r, by simp [upsertRecord, ha, hr], hp⟩

end GeminiRefresh

namespace GeminiRefresh

/-! ## C3: verification-code extraction priority -/

/-- C3.  Code extraction first tries the label-anchored pattern (a word
among code/verification/passcode/pin/验证码, case-insensitive over
multi-line text, followed — after the intervening colon — by a 4–8
character alphanumeric token) and returns that token when it matches; only
otherwise does it fall back to the first standalone 6-digit number.  In
particular "验证码: 482193" yields "482193", the bare body "123456" yields
"123456", and a labeled non-6-digit token beats a bare 6-digit number. -/
theorem extract_code_label_priority :
    (∀ (text : String) (tok : List Char), searchLabel text.toList = some tok →
      extract_code text = some (String.mk tok)) ∧
    (∀ text : String, searchLabel text.toList = none →
      extract_code text = (findSixDigit none text.toList).map String.mk) ∧
    extract_code "验证码: 482193" = some "482193" ∧
    extract_code "123456" = some "123456" ∧
    extract_code "Your code: abcd\nbackup 999999" = some "abcd" := by
  refine ⟨?_, ?_, by decide, by decide, by decide⟩
  · intro text tok h
    unfold extract_code
    rw [h]
  · intro text h
    unfold extract_code
    rw [h]

/-- Witness for C3: the label-anchored branch fires on a concrete body. -/
theorem extract_code_label_priority_witness :
    searchLabel ("pin: 9999".toList) = some ['9', '9', '9', '9'] ∧
    extract_code "pin: 9999" = some (String.mk ['9', '9', '9', '9']) :=
  ⟨by decide,
   extract_code_label_priority.1 "pin: 9999" ['9', '9', '9', '9'] (by decide)⟩

/-! ## C9: month-boundary failure of the default expiry in the store -/

/-- C9.  `update_accounts_json` computes its default expiry with
`now.replace(day=now.day + 7)`; whenever the current day-of-month plus 7
exceeds the last day of the current month this raises, and the write does
not complete. -/
theorem update_accounts_json_day_overflow :
    ∀ (now : PyDateTime) (accounts : List AccountRecord) (email : String)
      (cd : AccountData),
    daysInMonth now.year now.month < now.day + 7 →
    update_accounts_json now accounts email cd =
      Except.error "day is out of range for month" := by
  intro now accounts email cd h
  have hne : ¬ (now.day + 7 ≤ daysInMonth now.year now.month) := by omega
  simp [update_accounts_json, replaceDay, hne]

/-- Witness for C9: January 28 plus 7 days overflows the month and the
write fails. -/
theorem update_accounts_json_day_overflow_witness :
    daysInMonth 2025 1 < 28 + 7 ∧
    update_accounts_json ⟨2025, 1, 28, 12, 0, 0⟩ [] "a@b.c"
        ⟨"ses", "", "", "", none, "a@b.c", ""⟩ =
      Except.error "day is out of range for month" :=
  ⟨by decide,
   update_accounts_json_day_overflow ⟨2025, 1, 28, 12, 0, 0⟩ [] "a@b.c"
     ⟨"ses", "", "", "", none, "a@b.c", ""⟩ (by decide)⟩

/-! ## C10: the store always persists the locally computed expiry -/

/-- C10.  Every completed `update_accounts_json` call persists a record
whose `expires_at` equals the locally computed default (the current date
with the day field incremented by 7), and the result is independent of the
`expires_at` value supplied in the cookie data — the T−12h expiry computed
by `extract_cookies` is never written to the store. -/
theorem update_accounts_json_expiry_is_local :
    (∀ (now : PyDateTime) (accounts : List AccountRecord) (email : String)
       (cd : AccountData) (out : List AccountRecord),
      update_accounts_json now accounts email cd = Except.ok out →
      ∃ r ∈ out, r.email = email ∧
        r.expires_at = { now with day := now.day + 7 }) ∧
    (∀ (now : PyDateTime) (accounts : List AccountRecord) (email : String)
       (cd : AccountData) (e1 e2 : Option Int),
      update_accounts_json now accounts email { cd with expires_at := e1 } =
      update_accounts_json now accounts email { cd with expires_at := e2 }) := by
  constructor
  · intro now accounts email cd out h
    unfold update_accounts_json at h
    cases hr : replaceDay now (now.day + 7) with
    | error e => rw [hr] at h; cases h
    | ok expires =>
        rw [hr] at h
        have hout : upsertRecord email
            (mkRecord ("account_" ++ toString (accounts.length + 1)) email cd
              expires now) accounts = out := by
          injection h
        have hexp : expires = { now with day := now.day + 7 } := by
          unfold replaceDay at hr
          split at hr
          · injection hr with h2; exact h2.symm
          · cases hr
        subst hout
        exact upsertRecord_mem email _ accounts _
          (fun old => ⟨rfl, by simp [mkRecord, hexp]⟩)
  · intro now accounts email cd e1 e2
    cases cd
    rfl

/-- Witness for C10: a concrete completed write persists the day+7 expiry
even though the cookie data carried a different timestamp expiry. -/
theorem update_accounts_json_expiry_is_local_witness :
    ∃ r ∈ (upsertRecord "a@b.c"
        (mkRecord "account_1" "a@b.c" ⟨"ses", "1", "cfg", "oses", some 1700000000, "a@b.c", "pw"⟩
          ⟨2025, 3, 17, 9, 30, 0⟩ ⟨2025, 3, 10, 9, 30, 0⟩) []),
      r.email = "a@b.c" ∧ r.expires_at = ⟨2025, 3, 17, 9, 30, 0⟩ :=
  update_accounts_json_expiry_is_local.1 ⟨2025, 3, 10, 9, 30, 0⟩ [] "a@b.c"
    ⟨"ses", "1", "cfg", "oses", some 1700000000, "a@b.c", "pw"⟩ _ rfl

end GeminiRefresh

namespace GeminiRefresh

/-! ## C2: cookie extraction round-trip -/

/-- C2.  When the context's cookies contain exactly one cookie named
`__Secure-C_SES` with value `V`: the extracted bundle has
`secure_c_ses = V`; if that cookie carries an expiry timestamp `T`, the
bundle's `expires_at` renders `T` minus 12 hours (43200 s); if the cookie
carries no expiry, `expires_at` renders the current time plus 7 days. -/
theorem extract_cookies_roundtrip :
    ∀ (cfg idx V : String) (now : Int) (pre post : List BCookie),
    (∀ ck ∈ pre, ck.name ≠ "__Secure-C_SES") →
    (∀ ck ∈ post, ck.name ≠ "__Secure-C_SES") →
    (∀ T : Int, 0 < T →
      (extract_cookies cfg idx (pre ++ ⟨"__Secure-C_SES", V, some T⟩ :: post) now).secure_c_ses = V ∧
      (extract_cookies cfg idx (pre ++ ⟨"__Secure-C_SES", V, some T⟩ :: post) now).expires_at = some (T - 43200)) ∧
    ((extract_cookies cfg idx (pre ++ ⟨"__Secure-C_SES", V, none⟩ :: post) now).secure_c_ses = V ∧
     (extract_cookies cfg idx (pre ++ ⟨"__Secure-C_SES", V, none⟩ :: post) now).expires_at = some (now + 604800)) := by
  intro cfg idx V now pre post hpre hpost
  have hfold : ∀ (mid : BCookie) (acc0 : CookieBundle),
      (pre ++ mid :: post).foldl applyCookie acc0 =
      post.foldl applyCookie (applyCookie (pre.foldl applyCookie acc0) mid) := by
    intro mid acc0
    rw [List.foldl_append]
    rfl
  have hpre2 := foldl_applyCookie_other pre
    ⟨"", idx, cfg, "", none⟩ hpre
  constructor
  · intro T hT
    simp only [extract_cookies]
    rw [hfold]
    have hmid : applyCookie (pre.foldl applyCookie ⟨"", idx, cfg, "", none⟩)
        ⟨"__Secure-C_SES", V, some T⟩ =
        ⟨V, (pre.foldl applyCookie ⟨"", idx, cfg, "", none⟩).csesidx,
         (pre.foldl applyCookie ⟨"", idx, cfg, "", none⟩).config_id,
         (pre.foldl applyCookie ⟨"", idx, cfg, "", none⟩).host_c_oses,
         some (T - 43200)⟩ := by
      simp [applyCookie, hT.ne']
    rw [hmid]
    have hp := foldl_applyCookie_other post
      ⟨V, (pre.foldl applyCookie ⟨"", idx, cfg, "", none⟩).csesidx,
       (pre.foldl applyCookie ⟨"", idx, cfg, "", none⟩).config_id,
       (pre.foldl applyCookie ⟨"", idx, cfg, "", none⟩).host_c_oses,
       some (T - 43200)⟩ hpost
    simp [hp.1, hp.2]
  · simp only [extract_cookies]
    rw [hfold]
    have hmid : applyCookie (pre.foldl applyCookie ⟨"", idx, cfg, "", none⟩)
        ⟨"__Secure-C_SES", V, none⟩ =
        ⟨V, (pre.foldl applyCookie ⟨"", idx, cfg, "", none⟩).csesidx,
         (pre.foldl applyCookie ⟨"", idx, cfg, "", none⟩).config_id,
         (pre.foldl applyCookie ⟨"", idx, cfg, "", none⟩).host_c_oses,
         (pre.foldl applyCookie ⟨"", idx, cfg, "", none⟩).expires_at⟩ := by
      simp [applyCookie]
    rw [hmid]
    have hp := foldl_applyCookie_other post
      ⟨V, (pre.foldl applyCookie ⟨"", idx, cfg, "", none⟩).csesidx,
       (pre.foldl applyCookie ⟨"", idx, cfg, "", none⟩).config_id,
       (pre.foldl applyCookie ⟨"", idx, cfg, "", none⟩).host_c_oses,
       (pre.foldl applyCookie ⟨"", idx, cfg, "", none⟩).expires_at⟩ hpost
    simp only [hpre2.2] at hp ⊢
    simp [hp.1, hp.2]

/-- Witness for C2: concrete cookie lists for both the with-expiry and the
no-expiry cases. -/
theorem extract_cookies_roundtrip_witness :
    (extract_cookies "cfg" "1"
        [⟨"NID", "x", some 5⟩, ⟨"__Secure-C_SES", "V0", some 1700000000⟩,
         ⟨"__Host-C_OSES", "o", none⟩] 100).secure_c_ses = "V0" ∧
    (extract_cookies "cfg" "1"
        [⟨"NID", "x", some 5⟩, ⟨"__Secure-C_SES", "V0", some 1700000000⟩,
         ⟨"__Host-C_OSES", "o", none⟩] 100).expires_at = some (1700000000 - 43200) :=
  (extract_cookies_roundtrip "cfg" "1" "V0" 100
    [⟨"NID", "x", some 5⟩] [⟨"__Host-C_OSES", "o", none⟩]
    (by decide) (by decide)).1 1700000000 (by decide)

end GeminiRefresh

namespace GeminiRefresh

/-! ## C4 helper lemmas about `find_healthy_node` -/

/-- A returned node is a member that passed both checks, and every earlier
member was skipped or failed a check. -/
theorem find_healthy_node_some (env : ClashEnv) (nodes : List String) (n : String)
    (h : (find_healthy_node env nodes).1 = some n) :
    skipName n = false ∧ 0 < test_latency (env.delayResp n) ∧
    test_google_access (env.googleStatus n) = true ∧
    ∃ pre post, nodes = pre ++ n :: post ∧
      ∀ m ∈ pre, skipName m = true ∨ test_latency (env.delayResp m) ≤ 0 ∨
        test_google_access (env.googleStatus m) = false := by
  induction nodes with
  | nil => simp [find_healthy_node] at h
  | cons a rest ih =>
      unfold find_healthy_node at h
      by_cases h1 : skipName a
      · rw [if_pos h1] at h
        obtain ⟨hn1, hn2, hn3, pre, post, hsplit, hpre⟩ := ih h
        exact ⟨hn1, hn2, hn3, a :: pre, post, by simp [hsplit],
          fun m hm => by
            rcases List.mem_cons.mp hm with rfl | hm2
            · exact Or.inl h1
            · exact hpre m hm2⟩
      · rw [if_neg h1] at h
        by_cases h2 : test_latency (env.delayResp a) ≤ 0
        · rw [if_pos h2] at h
          obtain ⟨hn1, hn2, hn3, pre, post, hsplit, hpre⟩ := ih h
          exact ⟨hn1, hn2, hn3, a :: pre, post, by simp [hsplit],
            fun m hm => by
              rcases List.mem_cons.mp hm with rfl | hm2
              · exact Or.inr (Or.inl h2)
              · exact hpre m hm2⟩
        · rw [if_neg h2] at h
          by_cases h3 : test_google_access (env.googleStatus a)
          · rw [if_pos h3] at h
            simp only [Option.some.injEq] at h
            subst h
            exact ⟨Bool.eq_false_iff.mpr h1, by omega, h3, [], rest, rfl, by simp⟩
          · rw [if_neg h3] at h
            obtain ⟨hn1, hn2, hn3, pre, post, hsplit, hpre⟩ := ih h
            exact ⟨hn1, hn2, hn3, a :: pre, post, by simp [hsplit],
              fun m hm => by
                rcases List.mem_cons.mp hm with rfl | hm2
                · exact Or.inr (Or.inr (Bool.eq_false_iff.mpr h3))
                · exact hpre m hm2⟩

/-- When every member is denylisted or fails a check, no node is returned. -/
theorem find_healthy_node_none (env : ClashEnv) (nodes : List String)
    (h : ∀ m ∈ nodes, skipName m = true ∨ test_latency (env.delayResp m) ≤ 0 ∨
      test_google_access (env.googleStatus m) = false) :
    (find_healthy_node env nodes).1 = none := by
  induction nodes with
  | nil => simp [find_healthy_node]
  | cons a rest ih =>
      have hrest := ih (fun m hm => h m (by simp [hm]))
      have ha := h a (by simp)
      unfold find_healthy_node
      by_cases h1 : skipName a
      · rw [if_pos h1]; exact hrest
      · rw [if_neg h1]
        by_cases h2 : test_latency (env.delayResp a) ≤ 0
        · rw [if_pos h2]; exact hrest
        · rw [if_neg h2]
          have h3 : test_google_access (env.googleStatus a) = false := by
            rcases ha with ha | ha | ha
            · exact absurd ha (by simp [h1])
            · exact absurd ha h2
            · exact ha
          rw [h3]
          simp only [Bool.false_eq_true, if_false]
          exact hrest

/-- Each member is latency-probed at most as often as it occurs in the
group list. -/
theorem find_healthy_node_count_le (env : ClashEnv) (nodes : List String)
    (m : String) :
    (find_healthy_node env nodes).2.count (CEv.lat m) ≤ nodes.count m := by
  induction nodes with
  | nil => simp [find_healthy_node]
  | cons a rest ih =>
      unfold find_healthy_node
      by_cases h1 : skipName a
      · rw [if_pos h1]
        calc (find_healthy_node env rest).2.count (CEv.lat m) ≤ rest.count m := ih
          _ ≤ (a :: rest).count m := by
              by_cases hh : a = m <;> simp [List.count_cons, hh]
      · rw [if_neg h1]
        by_cases h2 : test_latency (env.delayResp a) ≤ 0
        · rw [if_pos h2]
          by_cases hh : a = m <;> simp [List.count_cons, hh] <;> omega
        · rw [if_neg h2]
          by_cases h3 : test_google_access (env.googleStatus a)
          · rw [if_pos h3]
            by_cases hh : a = m <;> simp [List.count_cons, hh]
          · rw [if_neg h3]
            by_cases hh : a = m <;> simp [List.count_cons, hh] <;> omega

/-- When the search fails, each non-denylisted member is latency-probed
exactly as often as it occurs in the group list. -/
theorem find_healthy_node_count_none (env : ClashEnv) (nodes : List String)
    (m : String) (hm : skipName m = false)
    (hres : (find_healthy_node env nodes).1 = none) :
    (find_healthy_node env nodes).2.count (CEv.lat m) = nodes.count m := by
  induction nodes with
  | nil => simp [find_healthy_node]
  | cons a rest ih =>
      unfold find_healthy_node at hres ⊢
      by_cases h1 : skipName a
      · rw [if_pos h1] at hres ⊢
        have hne : a ≠ m := fun hh => by rw [hh] at h1; rw [h1] at hm; cases hm
        rw [ih hres]
        simp [List.count_cons, hne]
      · rw [if_neg h1] at hres ⊢
        by_cases h2 : test_latency (env.delayResp a) ≤ 0
        · rw [if_pos h2] at hres ⊢
          simp only at hres
          rw [List.count_cons, List.count_cons, ih hres]
          by_cases hh : a = m <;> simp [hh]
        · rw [if_neg h2] at hres ⊢
          by_cases h3 : test_google_access (env.googleStatus a)
          · rw [if_pos h3] at hres
            cases hres
          · rw [if_neg h3] at hres ⊢
            simp only at hres
            simp only [List.count_cons, ih hres]
            by_cases hh : a = m <;> simp [hh]

end GeminiRefresh

namespace GeminiRefresh

/-! ## C4: healthy-node search -/

/-- C4.  `find_healthy_node` examines each member of the (shuffled) group
at most once; it skips members whose name contains a denylist keyword and
members whose latency probe is non-positive or absent (an absent delay
field yields 0 and is excluded, never treated as usable); it returns the
first remaining member whose post-switch reachability check succeeds
(HTTP 200 or 204); with no passing member it returns none after having
latency-tested every non-denylisted member exactly once. -/
theorem find_healthy_node_spec :
    (∀ (env : ClashEnv) (nodes : List String) (n : String),
      (find_healthy_node env nodes).1 = some n →
      n ∈ nodes ∧ skipName n = false ∧ 0 < test_latency (env.delayResp n) ∧
      test_google_access (env.googleStatus n) = true ∧
      ∃ pre post, nodes = pre ++ n :: post ∧
        ∀ m ∈ pre, skipName m = true ∨ test_latency (env.delayResp m) ≤ 0 ∨
          test_google_access (env.googleStatus m) = false) ∧
    (∀ (env : ClashEnv) (nodes : List String),
      (∀ m ∈ nodes, skipName m = true ∨ test_latency (env.delayResp m) ≤ 0 ∨
        test_google_access (env.googleStatus m) = false) →
      (find_healthy_node env nodes).1 = none) ∧
    (∀ (env : ClashEnv) (nodes : List String) (m : String), nodes.Nodup →
      (find_healthy_node env nodes).2.count (CEv.lat m) ≤ 1) ∧
    (∀ (env : ClashEnv) (nodes : List String) (m : String), nodes.Nodup →
      (find_healthy_node env nodes).1 = none → m ∈ nodes → skipName m = false →
      (find_healthy_node env nodes).2.count (CEv.lat m) = 1) ∧
    test_latency (DelayResp.ok none) = 0 ∧
    test_latency DelayResp.bad = -1 ∧ test_latency DelayResp.err = -1 := by
  refine ⟨?_, find_healthy_node_none, ?_, ?_, rfl, rfl, rfl⟩
  · intro env nodes n h
    obtain ⟨h1, h2, h3, pre, post, hsplit, hpre⟩ := find_healthy_node_some env nodes n h
    exact ⟨by simp [hsplit], h1, h2, h3, pre, post, hsplit, hpre⟩
  · intro env nodes m hnd
    exact (find_healthy_node_count_le env nodes m).trans
      (List.nodup_iff_count_le_one.mp hnd m)
  · intro env nodes m hnd hres hmem hskip
    rw [find_healthy_node_count_none env nodes m hskip hres]
    exact List.count_eq_one_of_mem hnd hmem

/-- Witness for C4: a two-member group whose members are denylisted or
report an absent delay is exhausted, returning none with exactly one
latency probe of the non-denylisted member. -/
theorem find_healthy_node_spec_witness :
    (find_healthy_node clashEnvNoDelay ["DIRECT", "US-1"]).1 = none ∧
    (find_healthy_node clashEnvNoDelay ["DIRECT", "US-1"]).2.count (CEv.lat "US-1") = 1 := by
  refine ⟨find_healthy_node_spec.2.1 clashEnvNoDelay ["DIRECT", "US-1"] ?_, ?_⟩
  · decide
  · exact find_healthy_node_spec.2.2.2.1 clashEnvNoDelay ["DIRECT", "US-1"] "US-1"
      (by decide) (by decide) (by decide) (by decide)

end GeminiRefresh

namespace GeminiRefresh

/-! ## C5: registration retry budget -/

/-- C5.  With a healthy node but a browser login step that fails on every
attempt, the registration pipeline performs exactly 3 full attempts,
registering a fresh mailbox identity on each (attempts 0, 1, 2), and
returns none; with no healthy node it aborts immediately with none,
consuming no attempt. -/
theorem register_flow_retries :
    ∀ env : RegEnv,
    (env.healthyNode = none → register_account_flow env = (none, [Ev.findNode])) ∧
    (∀ n, env.healthyNode = some n → (∀ i, env.regOk i = true) →
      (∀ i, env.loginOk i = false) →
      register_account_flow env =
        (none,
         [Ev.findNode,
          Ev.mailRegister 0, Ev.browserStart 0, Ev.browserLogin 0, Ev.browserStop 0,
          Ev.mailRegister 1, Ev.browserStart 1, Ev.browserLogin 1, Ev.browserStop 1,
          Ev.mailRegister 2, Ev.browserStart 2, Ev.browserLogin 2, Ev.browserStop 2])) := by
  intro env
  constructor
  · intro h
    simp [register_account_flow, h]
  · intro n hn hreg hlog
    simp [register_account_flow, hn, registerLoop, registerAttempt, hreg, hlog]

/-- Witness for C5: a concrete always-failing-login environment produces
exactly the three-attempt trace. -/
theorem register_flow_retries_witness :
    register_account_flow regEnvLoginFail =
      (none,
       [Ev.findNode,
        Ev.mailRegister 0, Ev.browserStart 0, Ev.browserLogin 0, Ev.browserStop 0,
        Ev.mailRegister 1, Ev.browserStart 1, Ev.browserLogin 1, Ev.browserStop 1,
        Ev.mailRegister 2, Ev.browserStart 2, Ev.browserLogin 2, Ev.browserStop 2]) :=
  (register_flow_retries regEnvLoginFail).2 "Node-1" rfl (fun _ => rfl) (fun _ => rfl)

end GeminiRefresh

namespace GeminiRefresh

/-! ## C1 helper lemmas -/

/-- A successful registration attempt returns the merged extracted bundle,
whose primary cookie is non-empty. -/
theorem registerAttempt_some (env : RegEnv) (i : Nat) (d : AccountData)
    (h : (registerAttempt env i).1 = some d) :
    d = mkAccountData (env.extracted i) (env.emailOf i) (env.pwdOf i) ∧
    d.secure_c_ses ≠ "" := by
  simp only [registerAttempt] at h
  repeat' split at h
  all_goals try simp_all [mkAccountData]
  all_goals (subst h; simp_all [mkAccountData])

/-- A registration attempt never writes to the artifact store. -/
theorem registerAttempt_no_write (env : RegEnv) (i : Nat) :
    (registerAttempt env i).2.countP isWrite = 0 := by
  simp only [registerAttempt]
  repeat' split
  all_goals rfl

/-- A successful registration loop run returns a bundle with non-empty
primary cookie. -/
theorem registerLoop_some (env : RegEnv) (fuel i : Nat) (d : AccountData)
    (h : (registerLoop env i fuel).1 = some d) : d.secure_c_ses ≠ "" := by
  induction fuel generalizing i with
  | zero => cases h
  | succ f ih =>
      unfold registerLoop at h
      rcases ha : registerAttempt env i with ⟨r, tr⟩
      rw [ha] at h
      cases r with
      | some d0 =>
          simp only [Option.some.injEq] at h
          subst h
          exact (registerAttempt_some env i _ (by rw [ha])).2
      | none =>
          simp only at h
          exact ih (i + 1) h

/-- The registration loop never writes to the artifact store. -/
theorem registerLoop_no_write (env : RegEnv) (fuel i : Nat) :
    (registerLoop env i fuel).2.countP isWrite = 0 := by
  induction fuel generalizing i with
  | zero => rfl
  | succ f ih =>
      unfold registerLoop
      rcases ha : registerAttempt env i with ⟨r, tr⟩
      have hw : tr.countP isWrite = 0 := by
        have h2 := registerAttempt_no_write env i
        rw [ha] at h2
        exact h2
      cases r with
      | some d0 => simpa using hw
      | none =>
          simp only [List.countP_append, hw]
          simpa using ih (i + 1)

/-- The whole registration pipeline returns a non-empty primary cookie on
success and never writes to the store itself. -/
theorem register_account_flow_some (env : RegEnv) (d : AccountData)
    (h : (register_account_flow env).1 = some d) : d.secure_c_ses ≠ "" := by
  unfold register_account_flow at h
  cases hn : env.healthyNode with
  | none => rw [hn] at h; cases h
  | some n =>
      rw [hn] at h
      simp only at h
      exact registerLoop_some env 3 0 d h

/-- The registration pipeline trace contains no store write. -/
theorem register_account_flow_no_write (env : RegEnv) :
    (register_account_flow env).2.countP isWrite = 0 := by
  unfold register_account_flow
  cases hn : env.healthyNode with
  | none => rfl
  | some n =>
      simp only [List.countP_cons, isWrite]
      simpa using registerLoop_no_write env 3 0

/-- A successful API refresh returns the merged extracted bundle, whose
primary cookie is non-empty, and its own trace contains no store write. -/
theorem refresh_single_account_some (email password : String) (env : RefreshEnv)
    (d : AccountData)
    (h : (refresh_single_account email password env).1 = some d) :
    d = mkAccountData env.extracted email password ∧ d.secure_c_ses ≠ "" := by
  simp only [refresh_single_account] at h
  repeat' split at h
  all_goals try simp_all [mkAccountData]
  all_goals (subst h; simp_all [mkAccountData])

/-- The API refresh pipeline itself never writes to the artifact store. -/
theorem refresh_single_account_no_write (email password : String) (env : RefreshEnv) :
    (refresh_single_account email password env).2.countP isWrite = 0 := by
  simp only [refresh_single_account]
  repeat' split
  all_goals rfl

end GeminiRefresh

namespace GeminiRefresh

/-- Any record written by `process_existing_account` has a non-empty
primary cookie. -/
theorem process_existing_account_write (email password : String)
    (pn : Option String) (env : RefreshEnv) (d : AccountData)
    (h : Ev.storeWrite d ∈ (process_existing_account email password pn env).2) :
    d.secure_c_ses ≠ "" := by
  simp only [process_existing_account] at h
  repeat' split at h
  all_goals simp_all [mkAccountData]

/-! ## C1: non-empty primary cookie is the success predicate -/

/-- C1.  On every acquisition path a bundle with empty `secure_c_ses` is a
failed attempt and is never handed to `update_accounts_json`: successful
pipeline results always carry a non-empty primary cookie, and every store
write on the four caller paths (register via main/API through
`registerCallerOnce`, refresh via main inside `process_existing_account`,
refresh via API through `runRefreshTask`) carries one; conversely a
non-empty `secure_c_ses` alone makes the attempt succeed, whatever the
other fields hold. -/
theorem empty_cookie_never_persisted :
    (∀ (env : RegEnv) (d : AccountData),
      (register_account_flow env).1 = some d → d.secure_c_ses ≠ "") ∧
    (∀ (env : RegEnv) (d : AccountData),
      Ev.storeWrite d ∈ registerCallerOnce env → d.secure_c_ses ≠ "") ∧
    (∀ (email password : String) (pn : Option String) (env : RefreshEnv)
       (d : AccountData),
      Ev.storeWrite d ∈ (process_existing_account email password pn env).2 →
      d.secure_c_ses ≠ "") ∧
    (∀ (email password : String) (env : RefreshEnv) (d : AccountData),
      Ev.storeWrite d ∈ runRefreshTask email password env → d.secure_c_ses ≠ "") ∧
    (∀ (env : RegEnv) (n : String) (c : String), env.healthyNode = some n →
      env.regOk 0 = true → env.loginOk 0 = true → env.codeOf 0 = some c →
      env.verifyOk 0 = true → env.completeOk 0 = true →
      (env.extracted 0).secure_c_ses ≠ "" →
      (register_account_flow env).1 =
        some (mkAccountData (env.extracted 0) (env.emailOf 0) (env.pwdOf 0))) := by
  refine ⟨register_account_flow_some, ?_, process_existing_account_write, ?_, ?_⟩
  · intro env d h
    unfold registerCallerOnce at h
    rcases hE : register_account_flow env with ⟨r, tr⟩
    rw [hE] at h
    have hw : tr.countP isWrite = 0 := by
      have h2 := register_account_flow_no_write env
      rw [hE] at h2
      exact h2
    cases r with
    | some d0 =>
        simp only at h
        rcases List.mem_append.mp h with hmem | hmem
        · exact ((List.countP_eq_zero.mp hw _ hmem) rfl).elim
        · have hd : d = d0 := by simpa using hmem
          subst hd
          exact register_account_flow_some env d (by rw [hE])
    | none =>
        simp only at h
        exact ((List.countP_eq_zero.mp hw _ h) rfl).elim
  · intro email password env d h
    unfold runRefreshTask at h
    rcases hE : refresh_single_account email password env with ⟨r, tr⟩
    rw [hE] at h
    have hw : tr.countP isWrite = 0 := by
      have h2 := refresh_single_account_no_write email password env
      rw [hE] at h2
      exact h2
    cases r with
    | some d0 =>
        simp only at h
        rcases List.mem_append.mp h with hmem | hmem
        · exact ((List.countP_eq_zero.mp hw _ hmem) rfl).elim
        · have hd : d = d0 := by simpa using hmem
          subst hd
          exact (refresh_single_account_some email password env d (by rw [hE])).2
    | none =>
        simp only at h
        exact ((List.countP_eq_zero.mp hw _ h) rfl).elim
  · intro env n c hn hreg hlog hc hver hcomp hses
    simp [register_account_flow, registerLoop, registerAttempt, hn, hreg, hlog,
      hc, hver, hcomp, hses]

/-- Witness for C1: with every step succeeding and an extracted bundle
whose only non-empty field is the primary cookie, registration returns the
merged bundle. -/
theorem empty_cookie_never_persisted_witness :
    (register_account_flow regEnvAllOk).1 =
      some (mkAccountData (regEnvAllOk.extracted 0) (regEnvAllOk.emailOf 0)
        (regEnvAllOk.pwdOf 0)) :=
  empty_cookie_never_persisted.2.2.2.2 regEnvAllOk "Node-1" "482193"
    rfl rfl rfl rfl rfl rfl (by decide)

end GeminiRefresh

namespace GeminiRefresh

/-! ## C6: the refresh paths are single-attempt pipelines -/

/-- Counterexample for C6: with a browser login step that always fails,
both refresh paths perform exactly one login attempt and fail, while the
claimed 3-attempt retry structure would perform three. -/
theorem refresh_no_retry_counterexample :
    (process_existing_account "a@b.c" "pw" none envLoginFail).2.countP isLogin = 1 ∧
    (process_existing_account "a@b.c" "pw" none envLoginFail).1 = false ∧
    (refresh_single_account "a@b.c" "pw" envLoginFail).2.countP isLogin = 1 ∧
    (refresh_single_account "a@b.c" "pw" envLoginFail).1 = none ∧
    (refreshPipelineClaimed "a@b.c" "pw" envLoginFail 3).2.countP isLogin = 3 := by
  decide

/-- C6 (amended).  Both refresh paths are single-attempt pipelines: each
performs at most one browser login, and it succeeds exactly when every
step succeeds — any step failure (missing node, mailbox login failure,
browser login false, code timeout, verification false, completion timeout,
or empty primary cookie) makes the whole call fail immediately with no
retry. -/
theorem refresh_single_attempt :
    ∀ (email password : String) (pn : Option String) (env : RefreshEnv),
    (process_existing_account email password pn env).2.countP isLogin ≤ 1 ∧
    (refresh_single_account email password env).2.countP isLogin ≤ 1 ∧
    ((process_existing_account email password pn env).1 = true ↔
      (email ≠ "" ∧
       (match pn with
        | some _ => env.switchOk = true
        | none => env.healthyNode.isSome = true) ∧
       env.loginOk = true ∧ env.codeOf.isSome = true ∧ env.verifyOk = true ∧
       env.completeOk = true ∧ env.extracted.secure_c_ses ≠ "")) ∧
    ((refresh_single_account email password env).1.isSome = true ↔
      (env.healthyNode.isSome = true ∧ env.mailLoginOk = true ∧
       env.loginOk = true ∧ env.codeOf.isSome = true ∧ env.verifyOk = true ∧
       env.completeOk = true ∧ env.extracted.secure_c_ses ≠ "")) := by
  intro email password pn env
  refine ⟨?_, ?_, ?_, ?_⟩
  · simp only [process_existing_account]
    repeat' split
    all_goals simp_all [List.countP_append, List.countP_cons, isLogin]
  · simp only [refresh_single_account]
    repeat' split
    all_goals simp_all [List.countP_append, List.countP_cons, isLogin]
  · simp only [process_existing_account]
    repeat' split
    all_goals simp_all [Option.isSome_iff_ne_none]
  · simp only [refresh_single_account]
    repeat' split
    all_goals simp_all [Option.isSome_iff_ne_none]

end GeminiRefresh

namespace GeminiRefresh

/-- Appending on the right preserves a clear-then-login decomposition. -/
theorem clearLogin_decomp_ext {x : List Ev} (y : List Ev)
    (h : ∃ s t, x = s ++ [Ev.clearInbox, Ev.browserLogin 0] ++ t) :
    ∃ s t, x ++ y = s ++ [Ev.clearInbox, Ev.browserLogin 0] ++ t := by
  obtain ⟨s, t, rfl⟩ := h
  exact ⟨s, t ++ y, by simp⟩

/-- The per-attempt prefix of the main refresh path contains the inbox
clear immediately before the browser login. -/
theorem clearLogin_decomp (g : List Ev) (e p : String) :
    ∃ s t, g ++ [Ev.bindExisting e p, Ev.browserStart 0, Ev.clearInbox,
        Ev.browserLogin 0] =
      s ++ [Ev.clearInbox, Ev.browserLogin 0] ++ t :=
  ⟨g ++ [Ev.bindExisting e p, Ev.browserStart 0], [], by simp⟩

/-! ## C7: identity binding and inbox clearing on the refresh paths -/

/-- Counterexample for C7: a fully successful API refresh performs a
browser login but never clears the inbox. -/
theorem refresh_api_no_inbox_clear :
    (refresh_single_account "a@b.c" "pw" envAllOk).1.isSome = true ∧
    (refresh_single_account "a@b.c" "pw" envAllOk).2.countP isLogin = 1 ∧
    (refresh_single_account "a@b.c" "pw" envAllOk).2.countP isClear = 0 := by
  decide

/-- C7 (amended).  Neither refresh path ever invokes mailbox registration,
and each binds the caller-supplied identity at most once (exactly once per
executed attempt); the main-entry refresh path clears the inbox
immediately before the browser login step, but the API refresh path
performs no inbox clear at all. -/
theorem refresh_identity_binding :
    ∀ (email password : String) (pn : Option String) (env : RefreshEnv),
    (process_existing_account email password pn env).2.countP isMailReg = 0 ∧
    (refresh_single_account email password env).2.countP isMailReg = 0 ∧
    (process_existing_account email password pn env).2.countP isBind ≤ 1 ∧
    (refresh_single_account email password env).2.countP isBind ≤ 1 ∧
    (Ev.browserLogin 0 ∈ (process_existing_account email password pn env).2 →
      ∃ s t, (process_existing_account email password pn env).2 =
        s ++ [Ev.clearInbox, Ev.browserLogin 0] ++ t) ∧
    (Ev.browserLogin 0 ∈ (refresh_single_account email password env).2 →
      Ev.bindExisting email password ∈ (refresh_single_account email password env).2) ∧
    (refresh_single_account email password env).2.countP isClear = 0 := by
  intro email password pn env
  refine ⟨?_, ?_, ?_, ?_, ?_, ?_, ?_⟩
  · simp only [process_existing_account]
    repeat' split
    all_goals simp_all [List.countP_append, List.countP_cons, isMailReg]
  · simp only [refresh_single_account]
    repeat' split
    all_goals simp_all [List.countP_append, List.countP_cons, isMailReg]
  · simp only [process_existing_account]
    repeat' split
    all_goals simp_all [List.countP_append, List.countP_cons, isBind]
  · simp only [refresh_single_account]
    repeat' split
    all_goals simp_all [List.countP_append, List.countP_cons, isBind]
  · simp only [process_existing_account]
    repeat' split
    all_goals intro hmem
    all_goals first
      | exact clearLogin_decomp _ email password
      | exact clearLogin_decomp_ext _ (clearLogin_decomp _ email password)
      | exact clearLogin_decomp_ext _
          (clearLogin_decomp_ext _ (clearLogin_decomp _ email password))
      | exact clearLogin_decomp_ext _
          (clearLogin_decomp_ext _
            (clearLogin_decomp_ext _ (clearLogin_decomp _ email password)))
      | simp at hmem
  · simp only [refresh_single_account]
    repeat' split
    all_goals intro hmem
    all_goals simp_all
  · simp only [refresh_single_account]
    repeat' split
    all_goals simp_all [List.countP_append, List.countP_cons, isClear]

end GeminiRefresh

namespace GeminiRefresh

/-- A success marker observed at any poll inside the budget makes the
poll return true. -/
theorem verifyPoll_success (url : Nat → String) (fuel : Nat) :
    ∀ (i j : Nat), i ≤ j → j < i + fuel → hasSuccessMarker (url j) = true →
    verifyPoll url i fuel = true := by
  induction fuel with
  | zero => intro i j h1 h2 _; omega
  | succ f ih =>
      intro i j h1 h2 hj
      unfold verifyPoll
      by_cases hi : hasSuccessMarker (url i)
      · rw [if_pos hi]
      · rw [if_neg hi]
        have hij : i ≠ j := fun hh => by rw [hh] at hi; exact hi hj
        exact ih (i + 1) j (by omega) (by omega) hj

/-- With no success marker inside the budget, the poll result is decided
solely by the failure check on the URL read after the loop. -/
theorem verifyPoll_exhaust (url : Nat → String) (fuel : Nat) :
    ∀ i : Nat, (∀ j, i ≤ j → j < i + fuel → hasSuccessMarker (url j) = false) →
    verifyPoll url i fuel = !hasFailMarker (url (i + fuel)) := by
  induction fuel with
  | zero => intro i _; rfl
  | succ f ih =>
      intro i h
      unfold verifyPoll
      rw [if_neg (by simp [h i (by omega) (by omega)])]
      have h2 := ih (i + 1) (fun j hj1 hj2 => h j (by omega) (by omega))
      have h3 : i + 1 + f = i + (f + 1) := by omega
      rw [h3] at h2
      exact h2

/-! ## C8: post-submission URL polling -/

/-- Counterexample for C8: a URL that carries a failure marker (and no
success marker) during the early polls does not make
`enter_verification_code` return false immediately — the source keeps
polling and returns true when a later poll shows a success marker, where
the claimed behaviour would have returned false at the first poll. -/
theorem verify_fail_marker_not_immediate :
    hasFailMarker (urlFailThenHome 0) = true ∧
    hasSuccessMarker (urlFailThenHome 0) = false ∧
    enter_verification_code true urlFailThenHome = true ∧
    verifyPollClaimed urlFailThenHome 0 10 = false := by
  decide

/-- C8 (amended).  After submitting the code, `enter_verification_code`
polls up to 10 times at 3-second intervals and returns true as soon as a
poll shows a logged-in marker; the failure-marker check happens only once,
after the poll budget is exhausted, on the URL read then: a failure marker
there yields false, otherwise true optimistically.  A failure marker seen
during the polls does not terminate them. -/
theorem enter_verification_code_poll :
    ∀ (found : Bool) (url : Nat → String),
    (found = false → enter_verification_code found url = false) ∧
    (∀ j, j < 10 → hasSuccessMarker (url j) = true →
      enter_verification_code true url = true) ∧
    ((∀ j, j < 10 → hasSuccessMarker (url j) = false) →
      enter_verification_code true url = !hasFailMarker (url 10)) := by
  intro found url
  refine ⟨?_, ?_, ?_⟩
  · intro h
    rw [h]
    rfl
  · intro j hj hsucc
    unfold enter_verification_code
    rw [if_pos rfl]
    exact verifyPoll_success url 10 0 j (by omega) (by omega) hsucc
  · intro h
    unfold enter_verification_code
    rw [if_pos rfl]
    exact verifyPoll_exhaust url 10 0 (fun j hj1 hj2 => h j (by omega))

/-- Witness for C8: a constant logged-in URL returns true at the first
poll. -/
theorem enter_verification_code_poll_witness :
    enter_verification_code true (fun _ => "https://x/home") = true :=
  (enter_verification_code_poll true (fun _ => "https://x/home")).2.1 0
    (by decide) (by decide)

end GeminiRefresh

namespace GeminiRefresh

/-- Witness for the amended C6: with every step succeeding, the single
attempt of the main refresh path succeeds. -/
theorem refresh_single_attempt_witness :
    (process_existing_account "a@b.c" "pw" none envAllOk).1 = true :=
  ((refresh_single_attempt "a@b.c" "pw" none envAllOk).2.2.1).mpr (by decide)

/-- Witness for the amended C7: on a concrete successful main-path
refresh, the trace decomposes around the clear-then-login pair. -/
theorem refresh_identity_binding_witness :
    ∃ s t, (process_existing_account "a@b.c" "pw" none envAllOk).2 =
      s ++ [Ev.clearInbox, Ev.browserLogin 0] ++ t :=
  (refresh_identity_binding "a@b.c" "pw" none envAllOk).2.2.2.2.1 (by decide)

end GeminiRefresh
